import Mathlib

/-!
Shallow embedding of the snake-game core (`mar.py`): entities, per-tick
snake advancement, collision resolution, timed speed effects, tick-interval
computation, and save/load of session state.  Rendering, sound, input key
codes and the pygame event loop are external collaborators and are not
modelled; the `controls` field of a snake is kept as an opaque tag because
`load_game` dereferences it.
-/

namespace Mar

/-- A grid cell: integer pixel pair, as in the Python tuples. -/
abbrev Cell := Int × Int

def GRID_SIZE : Int := 10

def DIS_WIDTH : Int := 1240

def DIS_HEIGHT : Int := 600

/-- `SPECIAL_EFFECT_DURATION = 3000` ms. -/
def SPECIAL_EFFECT_DURATION : Int := 3000

/-- Snake entity (`class Snake`): body is tail-first, head last, exactly as
the Python list.  `controls` is an opaque tag standing for the key-binding
dict (its contents are never inspected by the modelled code, but
`load_game` reads it off the pre-existing snake objects). -/
structure Snake where
  body : List Cell
  dir : Cell
  pending_dir : Cell
  grow : Int
  alive : Bool
  score : Int
  speed_effect : Int
  controls : Nat
deriving DecidableEq, Repr

/-- `self.body[-1]`; every snake the program builds has a nonempty body. -/
def Snake.headCell (s : Snake) : Cell := s.body.getLastD (0, 0)

/-- Lines 201-206: direction from the last two body cells, else stored dir. -/
def Snake.currentDir (s : Snake) : Cell :=
  if s.body.length ≥ 2 then
    let head := s.headCell
    let neck := s.body.getD (s.body.length - 2) (0, 0)
    (head.1 - neck.1, head.2 - neck.2)
  else s.dir

/-- `Snake.update` (lines 199-221): resolve the pending direction (no 180°
reversal, null intent keeps course), append the new head, then either
consume one unit of growth or drop the tail cell. -/
def Snake.update (s : Snake) : Snake :=
  let current_dir := s.currentDir
  let newDir :=
    if (s.pending_dir.1 = -current_dir.1 ∧ s.pending_dir.2 = -current_dir.2) ∨
        s.pending_dir = ((0 : Int), (0 : Int)) then
      current_dir
    else s.pending_dir
  let new_head : Cell := (s.headCell.1 + newDir.1, s.headCell.2 + newDir.2)
  let body1 := s.body ++ [new_head]
  if s.grow > 0 then
    { s with dir := newDir, body := body1, grow := s.grow - 1 }
  else
    { s with dir := newDir, body := body1.tail }

/-- Food entity: position and kind string ("normal", "bonus", "speed_up",
"speed_down", "shrink").  The display color is derived data and not kept. -/
structure Food where
  pos : Cell
  kind : String
deriving DecidableEq, Repr

/-- `self.special_effects`: a dict keyed by "speed_up" / "speed_down" mapping
to the activation timestamp (ms). -/
structure Effects where
  speed_up : Option Int
  speed_down : Option Int
deriving DecidableEq, Repr

/-- The session state owned by `SnakeGame` (the fields the modelled
operations read or write).  The theme is identified by its name: the code
stores a palette reference and recovers the name by identity lookup, which
is faithfully a name. -/
structure GameState where
  theme : String
  base_speed : Int
  obstacle_count : Int
  two_player : Bool
  snake1 : Snake
  snake2 : Option Snake
  high_score : Int
  obstacles : List Cell
  foods : List Food
  running : Bool
  paused : Bool
  last_update : Int
  special_effects : Effects
deriving DecidableEq, Repr

/-- Ordered theme names, as the keys of `THEMES`. -/
def themeNames : List String := ["classic", "dark", "neon"]

/-- One difficulty preset: `{"speed": _, "obstacles": _}`. -/
structure DiffCfg where
  speed : Int
  obstacles : Int
deriving DecidableEq, Repr

/-- Ordered difficulty presets, as the entries of `DIFFICULTIES`. -/
def difficulties : List (String × DiffCfg) :=
  [("easy", ⟨10, 10⟩), ("medium", ⟨15, 20⟩), ("hard", ⟨20, 35⟩)]

def difficultyOf (name : String) : Option DiffCfg :=
  (difficulties.find? (fun p => p.1 = name)).map (·.2)

/-- `get_theme_name` (lines 542-547): identity reverse lookup, defaulting to
"classic". -/
def getThemeName (g : GameState) : String :=
  if g.theme ∈ themeNames then g.theme else "classic"

/-- `get_difficulty_name` (lines 554-559): first preset matching both stored
values, else "custom". -/
def getDifficultyName (g : GameState) : String :=
  match difficulties.find?
      (fun p => p.2.speed = g.base_speed ∧ p.2.obstacles = g.obstacle_count) with
  | some p => p.1
  | none => "custom"

/-- `compute_interval` (lines 307-315).  `int(1000/float(speed))` with
`speed = max(5, base + mods) ≥ 5` is exact integer floor division. -/
def computeInterval (g : GameState) : Int :=
  let speed_mod :=
    g.snake1.speed_effect + (match g.snake2 with | some s => s.speed_effect | none => 0)
  let speed := max 5 (g.base_speed + speed_mod)
  1000 / speed

/-- The tick gate of `update` (lines 375-381): a simulation tick fires only
when not paused and `now - last_update >= compute_interval()`. -/
def tickFires (g : GameState) (now : Int) : Bool :=
  !g.paused && decide (now - g.last_update ≥ computeInterval g)

/-- Add `delta` to the speed modifier of every present snake (the body of
one expiry branch, lines 391-398). -/
def reverseOnAll (g : GameState) (delta : Int) : GameState :=
  { g with
    snake1 := { g.snake1 with speed_effect := g.snake1.speed_effect + delta }
    snake2 := g.snake2.map fun s => { s with speed_effect := s.speed_effect + delta } }

/-- The per-frame expiry loop of `update` (lines 388-399): for each active
entry whose age reaches the duration, reverse the delta on all snakes and
delete the entry. -/
def expireEffects (g : GameState) (now : Int) : GameState :=
  let g1 :=
    match g.special_effects.speed_up with
    | some t =>
      if now - t ≥ SPECIAL_EFFECT_DURATION then
        let g' := reverseOnAll g (-2)
        { g' with special_effects := { g'.special_effects with speed_up := none } }
      else g
    | none => g
  match g1.special_effects.speed_down with
  | some t =>
    if now - t ≥ SPECIAL_EFFECT_DURATION then
      let g' := reverseOnAll g1 2
      { g' with special_effects := { g'.special_effects with speed_down := none } }
    else g1
  | none => g1

/-- `apply_food_effect` (lines 446-469): mutates the eating snake and the
session's effect map. -/
def applyFoodEffect (now : Int) (snake : Snake) (eff : Effects) (food : Food) :
    Snake × Effects :=
  if food.kind = "normal" then
    ({ snake with grow := snake.grow + 1, score := snake.score + 1 }, eff)
  else if food.kind = "bonus" then
    ({ snake with grow := snake.grow + 2, score := snake.score + 5 }, eff)
  else if food.kind = "speed_up" then
    ({ snake with score := snake.score + 2, speed_effect := snake.speed_effect + 2 },
      { eff with speed_up := some now })
  else if food.kind = "speed_down" then
    ({ snake with score := snake.score + 2, speed_effect := snake.speed_effect - 2 },
      { eff with speed_down := some now })
  else if food.kind = "shrink" then
    let s1 := { snake with score := snake.score + 3 }
    if s1.body.length > 3 then
      let mid := s1.body.length / 2
      ({ s1 with body := s1.body.drop (mid - 1), grow := 0 }, eff)
    else (s1, eff)
  else (snake, eff)

/-- The death phase of `check_collisions` (lines 403-423) for one snake:
four sequential checks, each clearing the alive flag. `others` are the
other snakes in the session's list (bodies read, never mutated, so the
per-snake checks are independent exactly as in the source loop). -/
def collideStep (g : GameState) (snake : Snake) (others : List Snake) : Snake :=
  let head := snake.headCell
  let a1 :=
    if head.1 < 0 ∨ head.1 ≥ DIS_WIDTH ∨ head.2 < 0 ∨ head.2 ≥ DIS_HEIGHT then false
    else snake.alive
  let a2 := if head ∈ g.obstacles then false else a1
  let a3 := if head ∈ snake.body.dropLast then false else a2
  let a4 := if ∃ o ∈ others, head ∈ o.body then false else a3
  { snake with alive := a4 }

/-- The death phase of `check_collisions` over the whole session: the loop
over `snakes = [snake1] (+ [snake2])`. -/
def checkDeaths (g : GameState) : GameState :=
  match g.snake2 with
  | none => { g with snake1 := collideStep g g.snake1 [] }
  | some s2 =>
    { g with
      snake1 := collideStep g g.snake1 [s2]
      snake2 := some (collideStep g s2 [g.snake1]) }

/-- The per-snake record inside a save file.  Fields indexed with
`rec["..."]` in `load_game` are required; `speed_effect` is read with
`.get(..., 0)` and so may be absent. -/
structure SnakeRec where
  body : List Cell
  dir : Cell
  pending_dir : Cell
  grow : Int
  alive : Bool
  score : Int
  speed_effect : Option Int
deriving DecidableEq, Repr

/-- One food entry of a save file: `pos` is required, `kind` is read with
`.get("kind", "normal")`. -/
structure FoodRec where
  pos : Cell
  kind : Option String
deriving DecidableEq, Repr

/-- The session-state record (`save_game` lines 563-580).  `state["snake1"]`
is a required key; every other top-level field is read back with `.get` and
a default, so it is optional here. -/
structure SaveState where
  difficulty : Option String
  theme : Option String
  two_player : Option Bool
  snake1 : SnakeRec
  snake2 : Option SnakeRec
  obstacles : Option (List Cell)
  foods : Option (List FoodRec)
  high_score : Option Int
deriving DecidableEq, Repr

def saveSnake (s : Snake) : SnakeRec :=
  { body := s.body, dir := s.dir, pending_dir := s.pending_dir, grow := s.grow
    alive := s.alive, score := s.score, speed_effect := some s.speed_effect }

/-- `save_game` (lines 561-591): the record written to disk.  Note it has no
field at all for the active-effect map. -/
def saveGame (g : GameState) : SaveState :=
  { difficulty := some (getDifficultyName g)
    theme := some (getThemeName g)
    two_player := some g.two_player
    snake1 := saveSnake g.snake1
    snake2 := g.snake2.map saveSnake
    obstacles := some g.obstacles
    foods := some (g.foods.map fun f => { pos := f.pos, kind := some f.kind })
    high_score := some g.high_score }

/-- Rebuild one snake from a record the way `load_game` does: a fresh
`Snake(...)` whose `controls` comes from the pre-existing snake object,
with every modelled field then overwritten from the record
(`speed_effect` via `.get(..., 0)`). -/
def loadSnake (r : SnakeRec) (controls : Nat) : Snake :=
  { body := r.body, dir := r.dir, pending_dir := r.pending_dir, grow := r.grow
    alive := r.alive, score := r.score, speed_effect := r.speed_effect.getD 0
    controls := controls }

/-- `load_game` (lines 593-633).  `none` models a corrupt or absent save
file (`load_state()` returned `None`): the method returns with the session
untouched.  When the record holds a second snake but the loading session
has none, the source dereferences `self.snake2.controls` on `None`, an
`AttributeError`, modelled as `Except.error`. -/
def loadGame (g : GameState) (st : Option SaveState) (now : Int) :
    Except Unit GameState :=
  match st with
  | none => Except.ok g
  | some st =>
    let themeName := st.theme.getD "classic"
    let theme' := if themeName ∈ themeNames then themeName else "classic"
    let cfg := (difficultyOf (st.difficulty.getD "medium")).getD ⟨15, 20⟩
    let tp := st.two_player.getD false
    let s1 := loadSnake st.snake1 g.snake1.controls
    let obs := st.obstacles.getD []
    let fds := (st.foods.getD []).map fun f =>
      ({ pos := f.pos, kind := f.kind.getD "normal" } : Food)
    let hs := match st.high_score with | some v => v | none => g.high_score
    match st.snake2 with
    | some r2 =>
      match g.snake2 with
      | none => Except.error ()
      | some old2 =>
        Except.ok
          { g with
            theme := theme', base_speed := cfg.speed
            obstacle_count := cfg.obstacles, two_player := tp, snake1 := s1
            snake2 := some (loadSnake r2 old2.controls), obstacles := obs
            foods := fds, high_score := hs, last_update := now }
    | none =>
      Except.ok
        { g with
          theme := theme', base_speed := cfg.speed
          obstacle_count := cfg.obstacles, two_player := tp, snake1 := s1
          snake2 := none, obstacles := obs, foods := fds, high_score := hs
          last_update := now }

/-! ### Concrete example states used by witnesses and counterexamples -/

/-- A plain single snake, as built by `SnakeGame.__init__` after two ticks. -/
def exSnake : Snake :=
  { body := [(100, 100), (110, 100), (120, 100)], dir := (10, 0), pending_dir := (10, 0)
    grow := 0, alive := true, score := 0, speed_effect := 0, controls := 0 }

/-- A plain single-player session. -/
def exGame : GameState :=
  { theme := "classic", base_speed := 15, obstacle_count := 20, two_player := false
    snake1 := exSnake, snake2 := none, high_score := 0, obstacles := [], foods := []
    running := true, paused := false, last_update := 0
    special_effects := { speed_up := none, speed_down := none } }

/-- A second snake for two-player examples. -/
def exSnakeB : Snake :=
  { body := [(600, 300), (610, 300), (620, 300)], dir := (10, 0), pending_dir := (10, 0)
    grow := 0, alive := true, score := 0, speed_effect := 0, controls := 1 }

/-- A plain two-player session. -/
def exGame2 : GameState :=
  { exGame with two_player := true, snake2 := some exSnakeB }

/-! ### C5: advance length rule -/

/-- C5: one `Snake.update` appends exactly one new head cell at
head + committed direction; if the growth counter was positive it is
decremented and the length grows by one, otherwise the tail cell (index 0)
is removed and the length is unchanged. -/
theorem c5_advance_length (s : Snake) (hne : s.body ≠ []) :
    (s.update).body =
      (if 0 < s.grow then s.body else s.body.tail) ++
        [(s.headCell.1 + (s.update).dir.1, s.headCell.2 + (s.update).dir.2)] ∧
    (0 < s.grow →
      (s.update).body.length = s.body.length + 1 ∧ (s.update).grow = s.grow - 1) ∧
    (¬ 0 < s.grow →
      (s.update).body.length = s.body.length ∧ (s.update).grow = s.grow) := by
  have htail : ∀ x : Cell, (s.body ++ [x]).tail = s.body.tail ++ [x] := by
    intro x
    cases hb : s.body with
    | nil => exact absurd hb hne
    | cons a l => simp
  have hlen : 1 ≤ s.body.length := List.length_pos.mpr hne
  by_cases hg : 0 < s.grow
  · refine ⟨?_, fun _ => ⟨?_, ?_⟩, fun h => absurd hg h⟩
    · simp only [Snake.update, gt_iff_lt, if_pos hg]
    · simp only [Snake.update, gt_iff_lt, if_pos hg, List.length_append,
        List.length_singleton]
    · simp only [Snake.update, gt_iff_lt, if_pos hg]
  · refine ⟨?_, fun h => absurd h hg, fun _ => ⟨?_, ?_⟩⟩
    · simp only [Snake.update, gt_iff_lt, if_neg hg, htail]
    · simp only [Snake.update, gt_iff_lt, if_neg hg, htail, List.length_append,
        List.length_singleton, List.length_tail]
      omega
    · simp only [Snake.update, gt_iff_lt, if_neg hg]

/-- Witness for C5 at a concrete snake. -/
theorem c5_advance_length_witness :
    (exSnake.update).body =
      (if 0 < exSnake.grow then exSnake.body else exSnake.body.tail) ++
        [(exSnake.headCell.1 + (exSnake.update).dir.1,
          exSnake.headCell.2 + (exSnake.update).dir.2)] ∧
    (0 < exSnake.grow →
      (exSnake.update).body.length = exSnake.body.length + 1 ∧
        (exSnake.update).grow = exSnake.grow - 1) ∧
    (¬ 0 < exSnake.grow →
      (exSnake.update).body.length = exSnake.body.length ∧
        (exSnake.update).grow = exSnake.grow) :=
  c5_advance_length exSnake (by decide)

/-! ### C6: no 180-degree reversal -/

/-- C6: with body length ≥ 2 (and the last two cells distinct, which holds
for every snake the program builds since committed directions are nonzero),
the direction adopted by `Snake.update` is never the exact negation of the
current direction read off the last two body cells, and a pending intent
equal to that negation or to the null vector leaves the current direction
in force. -/
theorem c6_no_reversal (s : Snake) (_h2 : 2 ≤ s.body.length)
    (hnd : s.currentDir ≠ ((0 : Int), (0 : Int))) :
    (s.update).dir ≠ (-s.currentDir.1, -s.currentDir.2) ∧
    ((s.pending_dir = (-s.currentDir.1, -s.currentDir.2) ∨
        s.pending_dir = ((0 : Int), (0 : Int))) →
      (s.update).dir = s.currentDir) := by
  have hdir : (s.update).dir =
      if (s.pending_dir.1 = -s.currentDir.1 ∧ s.pending_dir.2 = -s.currentDir.2) ∨
          s.pending_dir = ((0 : Int), (0 : Int)) then s.currentDir
      else s.pending_dir := by
    simp only [Snake.update]
    split <;> rfl
  by_cases hc : (s.pending_dir.1 = -s.currentDir.1 ∧ s.pending_dir.2 = -s.currentDir.2) ∨
      s.pending_dir = ((0 : Int), (0 : Int))
  · rw [hdir, if_pos hc]
    refine ⟨?_, fun _ => rfl⟩
    intro hEq
    apply hnd
    have h1 : s.currentDir.1 = -s.currentDir.1 := congrArg Prod.fst hEq
    have h2' : s.currentDir.2 = -s.currentDir.2 := congrArg Prod.snd hEq
    have : s.currentDir.1 = 0 := by omega
    have : s.currentDir.2 = 0 := by omega
    exact Prod.ext (by omega) (by omega)
  · rw [hdir, if_neg hc]
    constructor
    · intro hEq
      exact hc (Or.inl ⟨congrArg Prod.fst hEq, congrArg Prod.snd hEq⟩)
    · intro hp
      rcases hp with hp | hp
      · exact absurd (Or.inl ⟨congrArg Prod.fst hp, congrArg Prod.snd hp⟩) hc
      · exact absurd (Or.inr hp) hc

/-- `l.getD (l.length - 1) d` is the last element (with default). -/
theorem getD_last_eq_getLastD (l : List Cell) (d : Cell) :
    l.getD (l.length - 1) d = l.getLastD d := by
  rw [List.getLastD_eq_getLast?, List.getLast?_eq_getElem?]
  simp [List.getD]

/-- `getD` on an append reads the left list while in range. -/
theorem getD_append_left (l l2 : List Cell) (n : Nat) (d : Cell) (h : n < l.length) :
    (l ++ l2).getD n d = l.getD n d := by
  simp [List.getD, List.getElem?_append, h]

/-- The nondegeneracy invariant justifying the hypotheses of the
no-reversal property: for a snake whose stored direction is nonzero and
whose last two cells (when present) are distinct, one `Snake.update` keeps
the body nonempty, keeps the committed direction nonzero, and realigns the
last two cells with the committed direction — so the state reached is again
nondegenerate.  Program-built snakes start with one cell and direction
`(GRID_SIZE, 0)`, hence every reachable snake satisfies the hypotheses. -/
theorem update_preserves_nondegeneracy (s : Snake) (hne : s.body ≠ [])
    (hdir : s.dir ≠ ((0 : Int), (0 : Int)))
    (hcd : 2 ≤ s.body.length → s.currentDir ≠ ((0 : Int), (0 : Int))) :
    (s.update).body ≠ [] ∧ (s.update).dir ≠ ((0 : Int), (0 : Int)) ∧
      (2 ≤ (s.update).body.length → (s.update).currentDir = (s.update).dir) := by
  have hd : (s.update).dir =
      if (s.pending_dir.1 = -s.currentDir.1 ∧ s.pending_dir.2 = -s.currentDir.2) ∨
          s.pending_dir = ((0 : Int), (0 : Int)) then s.currentDir
      else s.pending_dir := by
    simp only [Snake.update]
    split <;> rfl
  have htail : ∀ x : Cell, (s.body ++ [x]).tail = s.body.tail ++ [x] := by
    intro x
    cases hb : s.body with
    | nil => exact absurd hb hne
    | cons a l => simp
  have hb : (s.update).body =
      (if 0 < s.grow then s.body else s.body.tail) ++
        [((s.headCell.1 + (s.update).dir.1, s.headCell.2 + (s.update).dir.2) : Cell)] := by
    by_cases hg : 0 < s.grow
    · simp only [Snake.update, gt_iff_lt, if_pos hg]
    · simp only [Snake.update, gt_iff_lt, if_neg hg, htail]
  refine ⟨?_, ?_, ?_⟩
  · rw [hb]
    simp
  · rw [hd]
    split_ifs with hc
    · by_cases h2 : 2 ≤ s.body.length
      · exact hcd h2
      · have hcs : s.currentDir = s.dir := by
          rw [Snake.currentDir, if_neg h2]
        rw [hcs]
        exact hdir
    · intro h0
      exact hc (Or.inr h0)
  · intro hlen2
    rw [Snake.currentDir, Snake.headCell, hb]
    rw [hb] at hlen2
    by_cases hg : 0 < s.grow
    · rw [if_pos hg] at hlen2 ⊢
      have h1 : 1 ≤ s.body.length := List.length_pos.mpr hne
      rw [if_pos (by simpa using hlen2)]
      rw [List.getLastD_concat]
      have hidx : (s.body ++
          [((s.headCell.1 + (s.update).dir.1, s.headCell.2 + (s.update).dir.2) : Cell)]).length
            - 2 = s.body.length - 1 := by
        simp
      rw [hidx, getD_append_left _ _ _ _ (by omega), getD_last_eq_getLastD]
      have hh : s.body.getLastD (0, 0) = s.headCell := rfl
      rw [hh]
      refine Prod.ext_iff.mpr ⟨?_, ?_⟩ <;> simp
    · rw [if_neg hg] at hlen2 ⊢
      cases hbody : s.body with
      | nil => exact absurd hbody hne
      | cons a t =>
        simp only [hbody, List.tail_cons] at hlen2 ⊢
        have htne : t ≠ [] := by
          intro h0
          rw [h0] at hlen2
          simp at hlen2
        have h1 : 1 ≤ t.length := List.length_pos.mpr htne
        rw [if_pos (by simpa using hlen2)]
        rw [List.getLastD_concat]
        have hidx : (t ++
            [((s.headCell.1 + (s.update).dir.1, s.headCell.2 + (s.update).dir.2) : Cell)]).length
              - 2 = t.length - 1 := by
          simp
        rw [hidx, getD_append_left _ _ _ _ (by omega), getD_last_eq_getLastD]
        have hh : t.getLastD (0, 0) = s.headCell := by
          rw [Snake.headCell, hbody]
          cases t with
          | nil => exact absurd rfl htne
          | cons b t' =>
            rw [List.getLastD_eq_getLast?, List.getLastD_eq_getLast?,
              List.getLast?_cons_cons]
        rw [hh]
        refine Prod.ext_iff.mpr ⟨?_, ?_⟩ <;> simp

/-- Witness for C6 at a concrete snake. -/
theorem c6_no_reversal_witness :
    (exSnake.update).dir ≠ (-exSnake.currentDir.1, -exSnake.currentDir.2) ∧
    ((exSnake.pending_dir = (-exSnake.currentDir.1, -exSnake.currentDir.2) ∨
        exSnake.pending_dir = ((0 : Int), (0 : Int))) →
      (exSnake.update).dir = exSnake.currentDir) :=
  c6_no_reversal exSnake (by decide) (by decide)

/-! ### C7: food effect table -/

/-- C7: `apply_food_effect` changes exactly what the table says: normal is
growth+1 score+1; bonus growth+2 score+5; speed_up score+2 modifier+2 and
the speed_up timer is (re)armed; speed_down score+2 modifier-2 and the
speed_down timer is (re)armed; shrink is score+3 and, when the body is
longer than 3, drops the cells before index `length/2 - 1` in one step and
zeroes the growth counter. -/
theorem c7_food_effects (now : Int) (s : Snake) (e : Effects) (pos : Cell) :
    applyFoodEffect now s e ⟨pos, "normal"⟩ =
      ({ s with grow := s.grow + 1, score := s.score + 1 }, e) ∧
    applyFoodEffect now s e ⟨pos, "bonus"⟩ =
      ({ s with grow := s.grow + 2, score := s.score + 5 }, e) ∧
    applyFoodEffect now s e ⟨pos, "speed_up"⟩ =
      ({ s with score := s.score + 2, speed_effect := s.speed_effect + 2 },
        { e with speed_up := some now }) ∧
    applyFoodEffect now s e ⟨pos, "speed_down"⟩ =
      ({ s with score := s.score + 2, speed_effect := s.speed_effect - 2 },
        { e with speed_down := some now }) ∧
    (3 < s.body.length →
      applyFoodEffect now s e ⟨pos, "shrink"⟩ =
        ({ s with
            score := s.score + 3
            body := s.body.drop (s.body.length / 2 - 1)
            grow := 0 }, e)) ∧
    (¬ 3 < s.body.length →
      applyFoodEffect now s e ⟨pos, "shrink"⟩ = ({ s with score := s.score + 3 }, e)) := by
  have hshr : applyFoodEffect now s e ⟨pos, "shrink"⟩ =
      if 3 < s.body.length then
        ({ s with
            score := s.score + 3
            body := s.body.drop (s.body.length / 2 - 1)
            grow := 0 }, e)
      else ({ s with score := s.score + 3 }, e) := rfl
  refine ⟨rfl, rfl, rfl, rfl, fun h => ?_, fun h => ?_⟩
  · rw [hshr, if_pos h]
  · rw [hshr, if_neg h]

/-- Witness for C7 at a concrete snake (body length 4, so the shrink branch
with truncation fires). -/
theorem c7_food_effects_witness :
    (3 < ({ exSnake with body := (200, 100) :: exSnake.body } : Snake).body.length →
      applyFoodEffect 0 { exSnake with body := (200, 100) :: exSnake.body }
          { speed_up := none, speed_down := none } ⟨(0, 0), "shrink"⟩ =
        ({ { exSnake with body := (200, 100) :: exSnake.body } with
            score := ({ exSnake with body := (200, 100) :: exSnake.body } : Snake).score + 3
            body := (({ exSnake with body := (200, 100) :: exSnake.body } : Snake).body).drop
              ((({ exSnake with body := (200, 100) :: exSnake.body } : Snake).body).length / 2 - 1)
            grow := 0 }, { speed_up := none, speed_down := none })) :=
  (c7_food_effects 0 { exSnake with body := (200, 100) :: exSnake.body }
    { speed_up := none, speed_down := none } (0, 0)).2.2.2.2.1

/-! ### C9: tick interval -/

/-- C9: the computed update interval equals `1000 / max 5 (base + sum of
speed modifiers)` ms, the divisor is at least 5, the interval never exceeds
200 ms, and a simulation tick fires only when unpaused and
`now - last_update` has reached the interval. -/
theorem c9_tick_interval (g : GameState) (now : Int) :
    computeInterval g =
      1000 / max 5 (g.base_speed + (g.snake1.speed_effect +
        (match g.snake2 with | some s => s.speed_effect | none => 0))) ∧
    5 ≤ max 5 (g.base_speed + (g.snake1.speed_effect +
        (match g.snake2 with | some s => s.speed_effect | none => 0))) ∧
    computeInterval g ≤ 200 ∧
    (tickFires g now = true →
      g.paused = false ∧ now - g.last_update ≥ computeInterval g) := by
  refine ⟨rfl, le_max_left _ _, ?_, ?_⟩
  · show (1000 : Int) / max 5 (g.base_speed + (g.snake1.speed_effect +
        (match g.snake2 with | some s => s.speed_effect | none => 0))) ≤ 200
    have hm : (5 : Int) ≤ max 5 (g.base_speed + (g.snake1.speed_effect +
        (match g.snake2 with | some s => s.speed_effect | none => 0))) :=
      le_max_left _ _
    obtain ⟨n, hn⟩ : ∃ n : ℕ, max 5 (g.base_speed + (g.snake1.speed_effect +
        (match g.snake2 with | some s => s.speed_effect | none => 0))) = (n : Int) :=
      ⟨_, (Int.toNat_of_nonneg (le_trans (by norm_num) hm)).symm⟩
    rw [hn] at hm ⊢
    have h5 : 5 ≤ n := by exact_mod_cast hm
    calc (1000 : Int) / (n : Int) = ((1000 / n : ℕ) : Int) := (Int.natCast_div 1000 n).symm
      _ ≤ ((200 : ℕ) : Int) := by
          exact_mod_cast Nat.div_le_div_left h5 (by norm_num)
      _ = 200 := by norm_num
  · intro h
    simp only [tickFires, Bool.and_eq_true, Bool.not_eq_true', decide_eq_true_eq] at h
    exact ⟨h.1, h.2⟩

/-- Witness for C9: the tick-gate implication at a concrete firing state. -/
theorem c9_tick_interval_witness :
    exGame.paused = false ∧ (100 : Int) - exGame.last_update ≥ computeInterval exGame :=
  (c9_tick_interval exGame 100).2.2.2 (by decide)

/-! ### C1: save/load round-trip -/

/-- C1: saving and immediately loading an untouched session reproduces the
body sequences, committed and pending directions, growth counters, scores,
alive flags, obstacle list and food positions and kinds of both snakes. -/
theorem c1_save_load_roundtrip (g : GameState) (now : Int) :
    (loadGame g (some (saveGame g)) now).map (fun x => x.snake1.body) =
      Except.ok g.snake1.body ∧
    (loadGame g (some (saveGame g)) now).map (fun x => x.snake1.dir) =
      Except.ok g.snake1.dir ∧
    (loadGame g (some (saveGame g)) now).map (fun x => x.snake1.pending_dir) =
      Except.ok g.snake1.pending_dir ∧
    (loadGame g (some (saveGame g)) now).map (fun x => x.snake1.grow) =
      Except.ok g.snake1.grow ∧
    (loadGame g (some (saveGame g)) now).map (fun x => x.snake1.score) =
      Except.ok g.snake1.score ∧
    (loadGame g (some (saveGame g)) now).map (fun x => x.snake1.alive) =
      Except.ok g.snake1.alive ∧
    (loadGame g (some (saveGame g)) now).map (fun x => x.snake2.map Snake.body) =
      Except.ok (g.snake2.map Snake.body) ∧
    (loadGame g (some (saveGame g)) now).map (fun x => x.snake2.map Snake.dir) =
      Except.ok (g.snake2.map Snake.dir) ∧
    (loadGame g (some (saveGame g)) now).map (fun x => x.snake2.map Snake.pending_dir) =
      Except.ok (g.snake2.map Snake.pending_dir) ∧
    (loadGame g (some (saveGame g)) now).map (fun x => x.snake2.map Snake.grow) =
      Except.ok (g.snake2.map Snake.grow) ∧
    (loadGame g (some (saveGame g)) now).map (fun x => x.snake2.map Snake.score) =
      Except.ok (g.snake2.map Snake.score) ∧
    (loadGame g (some (saveGame g)) now).map (fun x => x.snake2.map Snake.alive) =
      Except.ok (g.snake2.map Snake.alive) ∧
    (loadGame g (some (saveGame g)) now).map (fun x => x.obstacles) =
      Except.ok g.obstacles ∧
    (loadGame g (some (saveGame g)) now).map (fun x => x.foods.map Food.pos) =
      Except.ok (g.foods.map Food.pos) ∧
    (loadGame g (some (saveGame g)) now).map (fun x => x.foods.map Food.kind) =
      Except.ok (g.foods.map Food.kind) := by
  cases hg2 : g.snake2 with
  | none =>
    refine ⟨?_, ?_, ?_, ?_, ?_, ?_, ?_, ?_, ?_, ?_, ?_, ?_, ?_, ?_, ?_⟩ <;>
      simp [loadGame, saveGame, saveSnake, loadSnake, hg2, Except.map,
        List.map_map, Function.comp]
  | some s2 =>
    refine ⟨?_, ?_, ?_, ?_, ?_, ?_, ?_, ?_, ?_, ?_, ?_, ?_, ?_, ?_, ?_⟩ <;>
      simp [loadGame, saveGame, saveSnake, loadSnake, hg2, Except.map,
        List.map_map, Function.comp]

/-! ### C10: effect timers are not persisted -/

/-- C10: the save record carries no active-effect entries, so `save_game`
does not depend on the effect map at all, and `load_game` leaves the
session's `special_effects` exactly as it was before the load. -/
theorem c10_no_effect_persistence (g : GameState) (st : Option SaveState) (now : Int)
    (e : Effects) (g' : GameState) (h : loadGame g st now = Except.ok g') :
    g'.special_effects = g.special_effects ∧
    saveGame { g with special_effects := e } = saveGame g := by
  refine ⟨?_, rfl⟩
  match st with
  | none =>
    simp only [loadGame] at h
    cases h
    rfl
  | some st =>
    cases hs2 : st.snake2 with
    | none =>
      simp only [loadGame, hs2] at h
      cases h
      rfl
    | some r2 =>
      cases hg2 : g.snake2 with
      | none => simp [loadGame, hs2, hg2] at h
      | some old2 =>
        simp only [loadGame, hs2, hg2] at h
        cases h
        rfl

/-- Witness for C10 at a concrete session and record. -/
theorem c10_no_effect_persistence_witness :
    exGame.special_effects = exGame.special_effects ∧
    saveGame { exGame with special_effects := { speed_up := some 5, speed_down := none } } =
      saveGame exGame :=
  c10_no_effect_persistence exGame none 0 { speed_up := some 5, speed_down := none }
    exGame rfl

/-! ### C2: effect re-trigger -/

/-- C2 counterexample: a snake whose SpeedUp effect is still active
(activation 0, now 100) eats a second SpeedUp food.  The claim says no
additional delta is stacked, i.e. the modifier stays 2; the code adds
another +2, giving 4. -/
theorem c2_counterexample :
    (applyFoodEffect 100 { exSnake with speed_effect := 2 }
        { speed_up := some 0, speed_down := none } ⟨(0, 0), "speed_up"⟩).1.speed_effect = 4 ∧
    (applyFoodEffect 100 { exSnake with speed_effect := 2 }
        { speed_up := some 0, speed_down := none } ⟨(0, 0), "speed_up"⟩).1.speed_effect ≠
      ({ exSnake with speed_effect := 2 } : Snake).speed_effect ∧
    (applyFoodEffect 100 { exSnake with speed_effect := 2 }
        { speed_up := some 0, speed_down := none } ⟨(0, 0), "speed_up"⟩).2.speed_up =
      some 100 := by decide

/-- C2 (amended): eating a SpeedUp while one is active refreshes the
activation timestamp AND stacks another +2 onto the eating snake's
modifier; at the eventual expiry exactly one reversal of −2 hits every
snake and the entry is removed, so a further expiry pass changes nothing. -/
theorem c2_retrigger_amended (s : Snake) (e : Effects) (f : Food) (now t : Int)
    (_hact : e.speed_up = some t) (hk : f.kind = "speed_up") :
    (applyFoodEffect now s e f).1.speed_effect = s.speed_effect + 2 ∧
    (applyFoodEffect now s e f).2.speed_up = some now ∧
    (applyFoodEffect now s e f).2.speed_down = e.speed_down ∧
    (∀ (g : GameState) (now2 now3 : Int),
      g.special_effects = { speed_up := some now, speed_down := none } →
      now2 - now ≥ 3000 →
      (expireEffects g now2).special_effects = { speed_up := none, speed_down := none } ∧
      (expireEffects g now2).snake1.speed_effect = g.snake1.speed_effect - 2 ∧
      (expireEffects g now2).snake2.map Snake.speed_effect =
        g.snake2.map (fun x => x.speed_effect - 2) ∧
      (expireEffects (expireEffects g now2) now3).snake1.speed_effect =
        g.snake1.speed_effect - 2) := by
  obtain ⟨pos, kind⟩ := f
  subst hk
  refine ⟨rfl, rfl, rfl, ?_⟩
  intro g now2 now3 hse hexp
  have hc : now2 - now ≥ SPECIAL_EFFECT_DURATION := by
    simp only [SPECIAL_EFFECT_DURATION]
    omega
  have hstep : expireEffects g now2 =
      { (reverseOnAll g (-2)) with
        special_effects := { speed_up := none, speed_down := none } } := by
    simp only [expireEffects, hse]
    rw [if_pos hc]
    simp [reverseOnAll, hse]
  rw [hstep]
  refine ⟨rfl, ?_, ?_, ?_⟩
  · simp [reverseOnAll, sub_eq_add_neg]
  · cases hgs : g.snake2 <;> simp [reverseOnAll, sub_eq_add_neg, hgs]
  · simp [expireEffects, reverseOnAll, sub_eq_add_neg]

/-- Witness for C2's amended statement at a concrete snake. -/
theorem c2_retrigger_amended_witness :
    (applyFoodEffect 100 { exSnake with speed_effect := 2 }
        { speed_up := some 0, speed_down := none } ⟨(0, 0), "speed_up"⟩).1.speed_effect =
      ({ exSnake with speed_effect := 2 } : Snake).speed_effect + 2 :=
  (c2_retrigger_amended { exSnake with speed_effect := 2 }
    { speed_up := some 0, speed_down := none } ⟨(0, 0), "speed_up"⟩ 100 0 rfl rfl).1

/-! ### C3: effect idempotence under expiry -/

/-- C3 counterexample: in a two-player session, snake1 eats a SpeedUp at
time 0 and the effect expires at 3000 with nothing else happening; the
claim says every snake's modifier returns to its pre-eat value, but the
non-eating snake ends at −2 instead of its original 0 (the apply hits only
the eater while the reversal hits all snakes). -/
theorem c3_counterexample :
    (expireEffects
        { exGame2 with
          snake1 := (applyFoodEffect 0 exGame2.snake1 exGame2.special_effects
            ⟨(0, 0), "speed_up"⟩).1
          special_effects := (applyFoodEffect 0 exGame2.snake1 exGame2.special_effects
            ⟨(0, 0), "speed_up"⟩).2 } 3000).snake2.map Snake.speed_effect = some (-2) ∧
    exGame2.snake2.map Snake.speed_effect = some 0 ∧ ((-2 : Int) ≠ 0) := by decide

/-- C3 (amended): after snake1 eats a SpeedUp and the entry expires with no
other effect-related event in between, the EATING snake's modifier returns
exactly to its pre-eat value; any other snake's modifier is decreased by 2
(the apply touches only the eater, the reversal touches every snake).  In a
single-player session this is the claimed net-zero. -/
theorem c3_expiry_amended (g : GameState) (f : Food) (now now2 : Int)
    (hk : f.kind = "speed_up") (hd : g.special_effects.speed_down = none)
    (hexp : now2 - now ≥ 3000) :
    (expireEffects
        { g with
          snake1 := (applyFoodEffect now g.snake1 g.special_effects f).1
          special_effects := (applyFoodEffect now g.snake1 g.special_effects f).2 }
        now2).snake1.speed_effect = g.snake1.speed_effect ∧
    (expireEffects
        { g with
          snake1 := (applyFoodEffect now g.snake1 g.special_effects f).1
          special_effects := (applyFoodEffect now g.snake1 g.special_effects f).2 }
        now2).special_effects = { speed_up := none, speed_down := none } ∧
    (expireEffects
        { g with
          snake1 := (applyFoodEffect now g.snake1 g.special_effects f).1
          special_effects := (applyFoodEffect now g.snake1 g.special_effects f).2 }
        now2).snake2.map Snake.speed_effect =
      g.snake2.map (fun x => x.speed_effect - 2) := by
  obtain ⟨pos, kind⟩ := f
  subst hk
  have happ : applyFoodEffect now g.snake1 g.special_effects ⟨pos, "speed_up"⟩ =
      ({ g.snake1 with
          score := g.snake1.score + 2
          speed_effect := g.snake1.speed_effect + 2 },
        { g.special_effects with speed_up := some now }) := rfl
  rw [happ]
  have hc : now2 - now ≥ SPECIAL_EFFECT_DURATION := by
    simp only [SPECIAL_EFFECT_DURATION]
    omega
  have hstep : ∀ (gg : GameState), gg.special_effects.speed_up = some now →
      gg.special_effects.speed_down = none →
      expireEffects gg now2 =
        { (reverseOnAll gg (-2)) with
          special_effects := { speed_up := none, speed_down := none } } := by
    intro gg h1 h2
    simp only [expireEffects, h1]
    rw [if_pos hc]
    simp [reverseOnAll, h2]
  rw [hstep _ rfl (by simpa using hd)]
  refine ⟨?_, rfl, ?_⟩
  · simp [reverseOnAll]
  · cases hgs : g.snake2 <;> simp [reverseOnAll, sub_eq_add_neg, hgs]

/-- Witness for C3's amended statement: a single-player session, eat at 0,
expire at 3000, modifier back to 0. -/
theorem c3_expiry_amended_witness :
    (expireEffects
        { exGame with
          snake1 := (applyFoodEffect 0 exGame.snake1 exGame.special_effects
            ⟨(0, 0), "speed_up"⟩).1
          special_effects := (applyFoodEffect 0 exGame.snake1 exGame.special_effects
            ⟨(0, 0), "speed_up"⟩).2 } 3000).snake1.speed_effect =
      exGame.snake1.speed_effect :=
  (c3_expiry_amended exGame ⟨(0, 0), "speed_up"⟩ 0 3000 rfl rfl (by norm_num)).1

/-! ### C4: collision death rules -/

/-- The head cell of a snake with a nonempty body is a member of its body. -/
theorem headCell_mem (s : Snake) (h : s.body ≠ []) : s.headCell ∈ s.body := by
  rw [Snake.headCell]
  cases hb : s.body with
  | nil => exact absurd hb h
  | cons a t =>
    rw [List.getLastD_eq_getLast?, List.getLast?_eq_getLast _ (by simp)]
    simp [List.getLast_mem]

/-- Characterization of one pass of the death checks: the alive flag ends
false exactly when it was already false or one of the four death conditions
holds.  Note the cross-snake clause uses the other snake's body whether or
not that snake is alive, exactly as the source does. -/
theorem collideStep_alive_eq_false (g : GameState) (s : Snake) (others : List Snake) :
    (collideStep g s others).alive = false ↔
      (s.alive = false ∨
        s.headCell.1 < 0 ∨ s.headCell.1 ≥ DIS_WIDTH ∨
        s.headCell.2 < 0 ∨ s.headCell.2 ≥ DIS_HEIGHT ∨
        s.headCell ∈ g.obstacles ∨
        s.headCell ∈ s.body.dropLast ∨
        ∃ o ∈ others, s.headCell ∈ o.body) := by
  simp only [collideStep]
  split_ifs with h1 h2 h3 h4 <;> simp_all
  all_goals tauto

/-- C4 counterexample: a two-player state where snake2 is already dead and
snake1's head sits in snake2's body, with no out-of-bounds, obstacle or
self collision.  The claim (death exactly on the listed conditions, with
the cross check restricted to LIVING snakes) predicts snake1 survives; the
code kills it, because the cross-snake check ignores the alive flag. -/
theorem c4_counterexample :
    (({ exGame2 with
        snake1 := { exSnake with body := [(30, 0), (20, 0), (10, 0)] }
        snake2 := some { exSnakeB with body := [(0, 0), (10, 0)], alive := false } } :
      GameState).snake1.alive = true) ∧
    (({ exGame2 with
        snake1 := { exSnake with body := [(30, 0), (20, 0), (10, 0)] }
        snake2 := some { exSnakeB with body := [(0, 0), (10, 0)], alive := false } } :
      GameState).snake2.map Snake.alive = some false) ∧
    ¬ (({ exSnake with body := [(30, 0), (20, 0), (10, 0)] } : Snake).headCell.1 < 0 ∨
        ({ exSnake with body := [(30, 0), (20, 0), (10, 0)] } : Snake).headCell.1 ≥ DIS_WIDTH ∨
        ({ exSnake with body := [(30, 0), (20, 0), (10, 0)] } : Snake).headCell.2 < 0 ∨
        ({ exSnake with body := [(30, 0), (20, 0), (10, 0)] } : Snake).headCell.2 ≥ DIS_HEIGHT ∨
        ({ exSnake with body := [(30, 0), (20, 0), (10, 0)] } : Snake).headCell ∈
          ({ exGame2 with
              snake1 := { exSnake with body := [(30, 0), (20, 0), (10, 0)] }
              snake2 := some { exSnakeB with body := [(0, 0), (10, 0)], alive := false } } :
            GameState).obstacles ∨
        ({ exSnake with body := [(30, 0), (20, 0), (10, 0)] } : Snake).headCell ∈
          ({ exSnake with body := [(30, 0), (20, 0), (10, 0)] } : Snake).body.dropLast) ∧
    (checkDeaths
        { exGame2 with
          snake1 := { exSnake with body := [(30, 0), (20, 0), (10, 0)] }
          snake2 := some { exSnakeB with body := [(0, 0), (10, 0)], alive := false } }
      ).snake1.alive = false := by decide

/-- C4 (amended): in any session, after all snakes have advanced, a
snake's alive flag ends false exactly when it already was false or its head
is out of [0,width)×[0,height), or in the obstacle list, or in its own body
excluding the head, or in the other snake's full body when a second snake
is present — living or dead (the code does not consult the other snake's
alive flag).  In particular a same-cell head-to-head collision kills both
snakes. -/
theorem c4_deaths_amended (g : GameState) :
    ((checkDeaths g).snake1.alive = false ↔
      (g.snake1.alive = false ∨
        g.snake1.headCell.1 < 0 ∨ g.snake1.headCell.1 ≥ DIS_WIDTH ∨
        g.snake1.headCell.2 < 0 ∨ g.snake1.headCell.2 ≥ DIS_HEIGHT ∨
        g.snake1.headCell ∈ g.obstacles ∨
        g.snake1.headCell ∈ g.snake1.body.dropLast ∨
        (∃ s2, g.snake2 = some s2 ∧ g.snake1.headCell ∈ s2.body))) ∧
    (∀ s2, g.snake2 = some s2 →
      ((checkDeaths g).snake2.map Snake.alive = some false ↔
        (s2.alive = false ∨
          s2.headCell.1 < 0 ∨ s2.headCell.1 ≥ DIS_WIDTH ∨
          s2.headCell.2 < 0 ∨ s2.headCell.2 ≥ DIS_HEIGHT ∨
          s2.headCell ∈ g.obstacles ∨
          s2.headCell ∈ s2.body.dropLast ∨
          s2.headCell ∈ g.snake1.body))) ∧
    (∀ s2, g.snake2 = some s2 →
      g.snake1.body ≠ [] → s2.body ≠ [] → g.snake1.headCell = s2.headCell →
      (checkDeaths g).snake1.alive = false ∧
        (checkDeaths g).snake2.map Snake.alive = some false) := by
  cases hg2 : g.snake2 with
  | none =>
    have e1 : (checkDeaths g).snake1 = collideStep g g.snake1 [] := by
      simp [checkDeaths, hg2]
    have h1 := collideStep_alive_eq_false g g.snake1 []
    refine ⟨?_, ?_, ?_⟩
    · rw [e1, h1]
      simp [hg2]
    · intro s2 h
      simp at h
    · intro s2 h
      simp at h
  | some s2 =>
    have e1 : (checkDeaths g).snake1 = collideStep g g.snake1 [s2] := by
      simp [checkDeaths, hg2]
    have e2 : (checkDeaths g).snake2 = some (collideStep g s2 [g.snake1]) := by
      simp [checkDeaths, hg2]
    have h1 := collideStep_alive_eq_false g g.snake1 [s2]
    have h2 := collideStep_alive_eq_false g s2 [g.snake1]
    simp only [List.mem_singleton, exists_eq_left] at h1 h2
    refine ⟨?_, ?_, ?_⟩
    · rw [e1, h1]
      simp [hg2]
    · intro s2' h
      rw [Option.some_inj] at h
      subst h
      rw [e2]
      simpa using h2
    · intro s2' h hne1 hne2 hhd
      rw [Option.some_inj] at h
      subst h
      have hm1 : g.snake1.headCell ∈ s2.body := by
        rw [hhd]
        exact headCell_mem s2 hne2
      have hm2 : s2.headCell ∈ g.snake1.body := by
        rw [← hhd]
        exact headCell_mem g.snake1 hne1
      constructor
      · rw [e1]
        exact h1.mpr
          (Or.inr (Or.inr (Or.inr (Or.inr (Or.inr (Or.inr (Or.inr hm1)))))))
      · rw [e2]
        simp only [Option.map_some']
        exact congrArg some (h2.mpr
          (Or.inr (Or.inr (Or.inr (Or.inr (Or.inr (Or.inr (Or.inr hm2))))))))

/-- Witness for C4's amended statement: the head-to-head scenario — both
snakes' heads land on (300, 300) in the same tick and both die. -/
theorem c4_deaths_amended_witness :
    (checkDeaths
        { exGame2 with
          snake1 := { exSnake with body := [(290, 300), (300, 300)] }
          snake2 := some { exSnakeB with body := [(310, 300), (300, 300)] } }
      ).snake1.alive = false ∧
    (checkDeaths
        { exGame2 with
          snake1 := { exSnake with body := [(290, 300), (300, 300)] }
          snake2 := some { exSnakeB with body := [(310, 300), (300, 300)] } }
      ).snake2.map Snake.alive = some false :=
  (c4_deaths_amended
    { exGame2 with
      snake1 := { exSnake with body := [(290, 300), (300, 300)] }
      snake2 := some { exSnakeB with body := [(310, 300), (300, 300)] } }).2.2
    { exSnakeB with body := [(310, 300), (300, 300)] } rfl
    (by decide) (by decide) (by decide)

/-! ### C8: load tolerance -/

/-- A record whose difficulty name matches no preset. -/
def c8badRec : SaveState :=
  { difficulty := some "nightmare"
    theme := some "classic"
    two_player := some false
    snake1 := saveSnake exSnake
    snake2 := none
    obstacles := some []
    foods := some []
    high_score := some 0 }

/-- C8 counterexample: loading a record with the unknown difficulty name
"nightmare" yields base speed 15 — the `medium` preset — whereas the first
defined preset (`easy`) has speed 10.  The claim says an unknown difficulty
yields the FIRST defined preset. -/
theorem c8_counterexample :
    (loadGame exGame (some c8badRec) 0).toOption.map GameState.base_speed = some 15 ∧
    difficulties.head?.map (fun p => p.2.speed) = some 10 ∧
    ((15 : Int) ≠ 10) := by decide

/-- A minimal record exercising the defaults (every optional field absent). -/
def c8minRec : SaveState :=
  { difficulty := none
    theme := none
    two_player := none
    snake1 :=
      { body := [(0, 0)], dir := (10, 0), pending_dir := (10, 0), grow := 0
        alive := true, score := 0, speed_effect := none }
    snake2 := none
    obstacles := none
    foods := none
    high_score := none }

/-- C8 (amended): `load_game` leaves the session untouched on a corrupt or
absent file, and on a record raises no error provided the session has a
second snake whenever the record does (otherwise the source dereferences
`None.controls`); a missing or unknown theme name yields the first defined
theme ("classic"); a missing or unknown difficulty name yields the MEDIUM
preset (speed 15, 20 obstacles), not the first defined preset; a missing
snake speed modifier defaults to 0. -/
theorem c8_load_tolerance_amended (g : GameState) (st : SaveState) (now : Int)
    (hsn : st.snake2 = none ∨ g.snake2.isSome = true) :
    loadGame g none now = Except.ok g ∧
    ∃ g', loadGame g (some st) now = Except.ok g' ∧
      (st.theme = none → g'.theme = "classic" ∧ themeNames.head? = some "classic") ∧
      (∀ tn, st.theme = some tn → tn ∉ themeNames → g'.theme = "classic") ∧
      (st.difficulty = none → g'.base_speed = 15 ∧ g'.obstacle_count = 20 ∧
        difficultyOf "medium" = some ⟨15, 20⟩) ∧
      (∀ dn, st.difficulty = some dn → difficultyOf dn = none →
        g'.base_speed = 15 ∧ g'.obstacle_count = 20) ∧
      (st.snake1.speed_effect = none → g'.snake1.speed_effect = 0) := by
  refine ⟨rfl, ?_⟩
  obtain ⟨dif, th, tp, s1r, s2r, obs, fds, hsc⟩ := st
  cases s2r with
  | none =>
    refine ⟨_, rfl, ?_, ?_, ?_, ?_, ?_⟩
    · rintro rfl
      exact ⟨rfl, rfl⟩
    · rintro tn rfl htn
      show (if tn ∈ themeNames then tn else "classic") = "classic"
      exact if_neg htn
    · rintro rfl
      exact ⟨rfl, rfl, rfl⟩
    · rintro dn rfl hdn
      constructor
      · show ((difficultyOf dn).getD ⟨15, 20⟩).speed = 15
        rw [hdn]
        rfl
      · show ((difficultyOf dn).getD ⟨15, 20⟩).obstacles = 20
        rw [hdn]
        rfl
    · rintro hse
      show s1r.speed_effect.getD 0 = 0
      rw [hse]
      rfl
  | some r2 =>
    rcases hsn with hsn | hsn
    · exact absurd hsn (by simp)
    · obtain ⟨old2, hg2⟩ := Option.isSome_iff_exists.mp hsn
      have hload : loadGame g
          (some ⟨dif, th, tp, s1r, some r2, obs, fds, hsc⟩) now =
          Except.ok
            { g with
              theme :=
                if (th.getD "classic") ∈ themeNames then th.getD "classic" else "classic"
              base_speed := ((difficultyOf (dif.getD "medium")).getD ⟨15, 20⟩).speed
              obstacle_count := ((difficultyOf (dif.getD "medium")).getD ⟨15, 20⟩).obstacles
              two_player := tp.getD false
              snake1 := loadSnake s1r g.snake1.controls
              snake2 := some (loadSnake r2 old2.controls)
              obstacles := obs.getD []
              foods := (fds.getD []).map fun f =>
                ({ pos := f.pos, kind := f.kind.getD "normal" } : Food)
              high_score := match hsc with | some v => v | none => g.high_score
              last_update := now } := by
        simp only [loadGame]
        rw [hg2]
      refine ⟨_, hload, ?_, ?_, ?_, ?_, ?_⟩
      · rintro rfl
        exact ⟨rfl, rfl⟩
      · rintro tn rfl htn
        show (if tn ∈ themeNames then tn else "classic") = "classic"
        exact if_neg htn
      · rintro rfl
        exact ⟨rfl, rfl, rfl⟩
      · rintro dn rfl hdn
        constructor
        · show ((difficultyOf dn).getD ⟨15, 20⟩).speed = 15
          rw [hdn]
          rfl
        · show ((difficultyOf dn).getD ⟨15, 20⟩).obstacles = 20
          rw [hdn]
          rfl
      · rintro hse
        show s1r.speed_effect.getD 0 = 0
        rw [hse]
        rfl

/-- Witness for C8's amended statement: loading from an absent/corrupt file
leaves a concrete session unchanged (hypothesis discharged with a record
carrying no second snake). -/
theorem c8_load_tolerance_amended_witness :
    loadGame exGame none 0 = Except.ok exGame :=
  (c8_load_tolerance_amended exGame c8minRec 0 (Or.inl rfl)).1

end Mar
